import Mathlib

/-!
Verification development for the ex_gdal native bridge
(src/native/ex_gdal_nif/src/lib.rs).

The bridge is a thin wrapper over an external geospatial library (GDAL via
the rust gdal crate).  We embed the wrapper logic faithfully: lock
acquisition on the shared dataset resource, 1-based band resolution, the
per-encoding dispatch of `gdal_read_band`, native-endian serialization of
typed pixel buffers, the fixed-u8 windowed read, the data-type-to-atom
mapping, and the pass-through metadata queries.

The external library itself is out of scope of the repository (the spec
treats it as an external collaborator), so its calls are modelled as
abstract function fields on the dataset/band model, returning
`Except GdalError` results; the library contracts the wrapper relies on
(for example that a successful full-band typed read yields
width * height elements) are stated as explicit predicates and assumed as
hypotheses where a claim needs them.

Machine values are modelled by their bit patterns as `Nat` (a value of an
`k`-byte encoding is a `Nat` below `2 ^ (8 * k)`); `to_ne_bytes` on a
little-endian host is the byte decomposition `neBytes`.
-/

/-- The pixel data types of the external library
(`gdal::raster::GdalDataType`): the seven encodings the wrapper supports,
plus `Unknown`, `Int8`, `UInt64` and `Int64`, which all fall into the
wildcard arms of the wrapper. -/
inductive GdalDataType where
  | Unknown
  | UInt8
  | Int8
  | UInt16
  | Int16
  | UInt32
  | Int32
  | UInt64
  | Int64
  | Float32
  | Float64
deriving DecidableEq, Repr

/-- The atoms declared in the `atoms` module of lib.rs. -/
inductive Atom where
  | ok
  | error
  | unknown
  | uint8
  | int8
  | uint16
  | int16
  | uint32
  | int32
  | uint64
  | int64
  | float32
  | float64
deriving DecidableEq, Repr

/-- An error of the external library; `format!` on it yields its
diagnostic text (field `msg`). -/
structure GdalError where
  msg : String
deriving DecidableEq, Repr

/-- lib.rs `gdal_err_to_string`: `format!("{e}")`, the diagnostic text of
the library error. -/
def gdal_err_to_string (e : GdalError) : String :=
  e.msg

/-- A spatial reference object of the external library: its WKT and
proj4 renderings, each of which may fail. -/
structure SpatialRef where
  toWkt : Except GdalError String
  toProj4 : Except GdalError String

/-- Model of one raster band of the external library.  `readAs k` is the
full-band typed read at element byte width `k`
(`read_band_as::<T>` with `size_of::<T>() = k`), returning the element
bit patterns in row-major iteration order; `readWindowU8 x y w h` is the
windowed u8 read `read_as::<u8>((x, y), (w, h), (w, h), None)` (window
shape equals buffer shape: no resampling). -/
structure Band where
  width : Nat
  height : Nat
  dtype : GdalDataType
  noData : Option Nat
  readAs : Nat → Except GdalError (List Nat)
  readWindowU8 : Int → Int → Nat → Nat → Except GdalError (List Nat)

/-- Model of an open dataset of the external library. -/
structure Dataset where
  bands : List Band
  rasterSize : Nat × Nat
  spatialRef : Except GdalError SpatialRef
  geoTransform : Except GdalError (List Nat)
  metadataItem : String → String → Option String
  driverShortName : String

/-- The diagnostic text of the library error raised when
`GDALGetRasterBand` yields a null pointer (band index out of range). -/
def rasterbandNullErr : GdalError :=
  { msg := "GDAL method GDALGetRasterBand returned a NULL pointer" }

/-- Modelled from the spec (section 4.2): band indices are 1-based and an
index resolves to a band exactly when `1 ≤ idx ≤ raster_count`; otherwise
the library reports the null-pointer error (the BandError of the spec).
This models `Dataset::rasterband` of the external library, which is not
part of the repository. -/
def Dataset.rasterband (ds : Dataset) (idx : Nat) : Except GdalError Band :=
  if h : 1 ≤ idx ∧ idx ≤ ds.bands.length then
    Except.ok (ds.bands.get ⟨idx - 1, by omega⟩)
  else
    Except.error rasterbandNullErr

/-- `ds.raster_count()` of the external library: the number of bands. -/
def Dataset.rasterCount (ds : Dataset) : Nat :=
  ds.bands.length

/-- The wrapper resource `DatasetResource { inner: Mutex<Dataset> }`.
The `poisoned` flag models the poison state of the mutex. -/
structure DatasetResource where
  poisoned : Bool
  inner : Dataset

/-- The `Display` text of `std::sync::PoisonError`, produced by the
`map_err(|e| format!("{e}"))` on every lock acquisition (the LockError of
the spec). -/
def lockPoisonMsg : String :=
  "poisoned lock: another task failed inside"

/-- `resource.inner.lock().map_err(|e| format!("{e}"))`: yields the guarded
dataset, or the poison error text when the mutex is poisoned. -/
def lockInner (r : DatasetResource) : Except String Dataset :=
  if r.poisoned then Except.error lockPoisonMsg else Except.ok r.inner

/-- An Erlang binary produced through `NewBinary::new(env, size)` followed
by `copy_from_slice`: an owned buffer of the allocated size holding the
copied bytes. -/
structure Binary where
  size : Nat
  content : List Nat
deriving DecidableEq, Repr

/-- `NewBinary::new(env, len)` plus `copy_from_slice(&bytes)`. -/
def mkNewBinary (len : Nat) (bytes : List Nat) : Binary :=
  { size := len, content := bytes }

/-- `v.to_ne_bytes()` for a `k`-byte value on a little-endian host: the
`k` bytes of the bit pattern `v`, least significant first. -/
def neBytes (k : Nat) (v : Nat) : List Nat :=
  (List.range k).map (fun i => v / 256 ^ i % 256)

/-- `buf.data().iter().flat_map(|v| v.to_ne_bytes()).collect::<Vec<u8>>()`:
the concatenation, in element order, of the native-endian bytes of each
element. -/
def serialize (k : Nat) : List Nat → List Nat
  | [] => []
  | v :: rest => neBytes k v ++ serialize k rest

/-- The `match band_type { ... }` of `gdal_read_band` (lib.rs lines
79-134): pick the typed read path matching the encoding — the u8 buffer
is taken verbatim (`to_vec`), every other path reads at the matching
element width and serializes to native-endian bytes, and any other
encoding falls back to the f64 read. -/
def readBandBytes (band : Band) : Except GdalError (List Nat) :=
  match band.dtype with
  | GdalDataType.UInt8 =>
    match band.readAs 1 with
    | Except.error e => Except.error e
    | Except.ok buf => Except.ok buf
  | GdalDataType.Int16 =>
    match band.readAs 2 with
    | Except.error e => Except.error e
    | Except.ok buf => Except.ok (serialize 2 buf)
  | GdalDataType.UInt16 =>
    match band.readAs 2 with
    | Except.error e => Except.error e
    | Except.ok buf => Except.ok (serialize 2 buf)
  | GdalDataType.Int32 =>
    match band.readAs 4 with
    | Except.error e => Except.error e
    | Except.ok buf => Except.ok (serialize 4 buf)
  | GdalDataType.UInt32 =>
    match band.readAs 4 with
    | Except.error e => Except.error e
    | Except.ok buf => Except.ok (serialize 4 buf)
  | GdalDataType.Float32 =>
    match band.readAs 4 with
    | Except.error e => Except.error e
    | Except.ok buf => Except.ok (serialize 4 buf)
  | GdalDataType.Float64 =>
    match band.readAs 8 with
    | Except.error e => Except.error e
    | Except.ok buf => Except.ok (serialize 8 buf)
  | _ =>
    match band.readAs 8 with
    | Except.error e => Except.error e
    | Except.ok buf => Except.ok (serialize 8 buf)

/-- NIF `gdal_read_band` (lib.rs lines 68-139). -/
def gdal_read_band (r : DatasetResource) (band_idx : Nat) :
    Except String Binary :=
  match lockInner r with
  | Except.error e => Except.error e
  | Except.ok ds =>
    match ds.rasterband band_idx with
    | Except.error e => Except.error (gdal_err_to_string e)
    | Except.ok band =>
      match readBandBytes band with
      | Except.error e => Except.error (gdal_err_to_string e)
      | Except.ok bytes => Except.ok (mkNewBinary bytes.length bytes)

/-- NIF `gdal_read_band_window` (lib.rs lines 144-166): always reads the
window as u8 and copies the raw bytes. -/
def gdal_read_band_window (r : DatasetResource) (band_idx : Nat)
    (x y : Int) (w h : Nat) : Except String Binary :=
  match lockInner r with
  | Except.error e => Except.error e
  | Except.ok ds =>
    match ds.rasterband band_idx with
    | Except.error e => Except.error (gdal_err_to_string e)
    | Except.ok band =>
      match band.readWindowU8 x y w h with
      | Except.error e => Except.error (gdal_err_to_string e)
      | Except.ok data => Except.ok (mkNewBinary data.length data)

/-- NIF `gdal_raster_count` (lib.rs lines 50-54). -/
def gdal_raster_count (r : DatasetResource) : Except String Nat :=
  match lockInner r with
  | Except.error e => Except.error e
  | Except.ok ds => Except.ok ds.rasterCount

/-- NIF `gdal_raster_size` (lib.rs lines 59-63). -/
def gdal_raster_size (r : DatasetResource) : Except String (Nat × Nat) :=
  match lockInner r with
  | Except.error e => Except.error e
  | Except.ok ds => Except.ok ds.rasterSize

/-- `data_type_to_atom` (lib.rs lines 179-190). -/
def data_type_to_atom (dt : GdalDataType) : Atom :=
  match dt with
  | GdalDataType.UInt8 => Atom.uint8
  | GdalDataType.UInt16 => Atom.uint16
  | GdalDataType.Int16 => Atom.int16
  | GdalDataType.UInt32 => Atom.uint32
  | GdalDataType.Int32 => Atom.int32
  | GdalDataType.Float32 => Atom.float32
  | GdalDataType.Float64 => Atom.float64
  | _ => Atom.unknown

/-- NIF `gdal_band_type` (lib.rs lines 171-177). -/
def gdal_band_type (r : DatasetResource) (band_idx : Nat) :
    Except String Atom :=
  match lockInner r with
  | Except.error e => Except.error e
  | Except.ok ds =>
    match ds.rasterband band_idx with
    | Except.error e => Except.error (gdal_err_to_string e)
    | Except.ok band => Except.ok (data_type_to_atom band.dtype)

/-- NIF `gdal_no_data_value` (lib.rs lines 195-203): passes the optional
sentinel through unchanged (the f64 sentinel is modelled by its bit
pattern). -/
def gdal_no_data_value (r : DatasetResource) (band_idx : Nat) :
    Except String (Option Nat) :=
  match lockInner r with
  | Except.error e => Except.error e
  | Except.ok ds =>
    match ds.rasterband band_idx with
    | Except.error e => Except.error (gdal_err_to_string e)
    | Except.ok band => Except.ok band.noData

/-- NIF `gdal_spatial_ref_wkt` (lib.rs lines 208-213). -/
def gdal_spatial_ref_wkt (r : DatasetResource) : Except String String :=
  match lockInner r with
  | Except.error e => Except.error e
  | Except.ok ds =>
    match ds.spatialRef with
    | Except.error e => Except.error (gdal_err_to_string e)
    | Except.ok srs =>
      match srs.toWkt with
      | Except.error e => Except.error (gdal_err_to_string e)
      | Except.ok s => Except.ok s

/-- NIF `gdal_spatial_ref_proj4` (lib.rs lines 218-223). -/
def gdal_spatial_ref_proj4 (r : DatasetResource) : Except String String :=
  match lockInner r with
  | Except.error e => Except.error e
  | Except.ok ds =>
    match ds.spatialRef with
    | Except.error e => Except.error (gdal_err_to_string e)
    | Except.ok srs =>
      match srs.toProj4 with
      | Except.error e => Except.error (gdal_err_to_string e)
      | Except.ok s => Except.ok s

/-- NIF `gdal_geo_transform` (lib.rs lines 228-233). -/
def gdal_geo_transform (r : DatasetResource) : Except String (List Nat) :=
  match lockInner r with
  | Except.error e => Except.error e
  | Except.ok ds =>
    match ds.geoTransform with
    | Except.error e => Except.error (gdal_err_to_string e)
    | Except.ok gt => Except.ok gt

/-- NIF `gdal_metadata_item` (lib.rs lines 238-246). -/
def gdal_metadata_item (r : DatasetResource) (key domain : String) :
    Except String (Option String) :=
  match lockInner r with
  | Except.error e => Except.error e
  | Except.ok ds => Except.ok (ds.metadataItem key domain)

/-- NIF `gdal_driver_name` (lib.rs lines 251-255). -/
def gdal_driver_name (r : DatasetResource) : Except String String :=
  match lockInner r with
  | Except.error e => Except.error e
  | Except.ok ds => Except.ok ds.driverShortName

/-- NIF `gdal_open` (lib.rs lines 39-45), parameterized by the open
function of the external library: on library failure the diagnostic text
is surfaced, on success the dataset is wrapped in a fresh (unpoisoned)
mutex inside a new resource. -/
def gdal_open (libOpen : String → Except GdalError Dataset)
    (path : String) : Except String DatasetResource :=
  match libOpen path with
  | Except.error e => Except.error (gdal_err_to_string e)
  | Except.ok ds => Except.ok { poisoned := false, inner := ds }

/-- The seven encodings the wrapper supports with a typed read path of
their own (spec section 4.3). -/
def supported (dt : GdalDataType) : Bool :=
  match dt with
  | GdalDataType.UInt8 => true
  | GdalDataType.Int16 => true
  | GdalDataType.UInt16 => true
  | GdalDataType.Int32 => true
  | GdalDataType.UInt32 => true
  | GdalDataType.Float32 => true
  | GdalDataType.Float64 => true
  | _ => false

/-- The element byte width `sizeof(E)` of each supported encoding, and the
width of the f64 fallback for every other encoding. -/
def elemWidth (dt : GdalDataType) : Nat :=
  match dt with
  | GdalDataType.UInt8 => 1
  | GdalDataType.Int16 => 2
  | GdalDataType.UInt16 => 2
  | GdalDataType.Int32 => 4
  | GdalDataType.UInt32 => 4
  | GdalDataType.Float32 => 4
  | GdalDataType.Float64 => 8
  | _ => 8

/-- Modelled from the spec (section 4.5): the external library decodes the
entire band on a full-band typed read, so a successful `read_band_as`
yields exactly width * height elements, whatever element type is
requested. -/
def ReadsFull (b : Band) : Prop :=
  ∀ k data, b.readAs k = Except.ok data → data.length = b.width * b.height

/-- Modelled from the spec (section 4.6): the windowed read requests the
output buffer at the same size as the window (no resampling), so a
successful u8 windowed read of a `(w, h)` window yields exactly
`w * h` bytes. -/
def WindowExact (b : Band) : Prop :=
  ∀ x y w h data, b.readWindowU8 x y w h = Except.ok data →
    data.length = w * h

/-- A sample Int16 band of a 2 x 3 raster, used to instantiate theorems
with hypotheses at concrete inputs. -/
def sampleBandInt16 : Band :=
  { width := 2
    height := 3
    dtype := GdalDataType.Int16
    noData := none
    readAs := fun _ => Except.ok (List.replicate 6 5)
    readWindowU8 := fun _ _ w h => Except.ok (List.replicate (w * h) 7) }

/-- A sample band of an encoding outside the supported seven, with a
configured no-data sentinel (bit pattern 255). -/
def sampleBandUnknown : Band :=
  { width := 2
    height := 3
    dtype := GdalDataType.Unknown
    noData := some 255
    readAs := fun _ => Except.ok (List.replicate 6 1)
    readWindowU8 := fun _ _ w h => Except.ok (List.replicate (w * h) 7) }

/-- A library error used by sample datasets that carry no spatial
reference or geotransform. -/
def noSuchErr : GdalError :=
  { msg := "not available" }

/-- A sample two-band dataset. -/
def sampleDs : Dataset :=
  { bands := [sampleBandInt16, sampleBandUnknown]
    rasterSize := (2, 3)
    spatialRef := Except.error noSuchErr
    geoTransform := Except.error noSuchErr
    metadataItem := fun _ _ => none
    driverShortName := "MEM" }

/-- A healthy (unpoisoned) resource holding the sample dataset. -/
def sampleRes : DatasetResource :=
  { poisoned := false, inner := sampleDs }

/-- A dataset with zero bands: every band index is out of range. -/
def emptyDs : Dataset :=
  { bands := []
    rasterSize := (0, 0)
    spatialRef := Except.error noSuchErr
    geoTransform := Except.error noSuchErr
    metadataItem := fun _ _ => none
    driverShortName := "MEM" }

/-- A healthy resource holding the zero-band dataset. -/
def emptyRes : DatasetResource :=
  { poisoned := false, inner := emptyDs }

/-- A sample library open function that fails on every path, as the
library does on a non-existent, unreadable or unrecognized file. -/
def failOpen : String → Except GdalError Dataset :=
  fun _ => Except.error { msg := "No such file or directory" }

/-- One call of the exposed call surface against an already open
resource. -/
inductive NifCall where
  | rasterCount
  | rasterSize
  | readBand (idx : Nat)
  | readBandWindow (idx : Nat) (x y : Int) (w h : Nat)
  | bandType (idx : Nat)
  | noDataValue (idx : Nat)
  | spatialRefWkt
  | spatialRefProj4
  | geoTransform
  | metadataItem (key domain : String)
  | driverName

/-- The successful result of one call of the call surface. -/
inductive NifAnswer where
  | count (n : Nat)
  | size (p : Nat × Nat)
  | bytes (b : Binary)
  | tag (a : Atom)
  | sentinel (v : Option Nat)
  | text (s : String)
  | optText (s : Option String)
  | transform (l : List Nat)
deriving DecidableEq, Repr

/-- State-passing form of the call surface: one call returns its result
together with the resource the next call sees.  Every exposed function of
lib.rs receives shared access to the resource and returns only a result
value, never a modified dataset, so the outgoing resource is the incoming
one. -/
def runCall (r : DatasetResource) : NifCall → Except String NifAnswer × DatasetResource
  | NifCall.rasterCount => ((gdal_raster_count r).map NifAnswer.count, r)
  | NifCall.rasterSize => ((gdal_raster_size r).map NifAnswer.size, r)
  | NifCall.readBand idx => ((gdal_read_band r idx).map NifAnswer.bytes, r)
  | NifCall.readBandWindow idx x y w h =>
    ((gdal_read_band_window r idx x y w h).map NifAnswer.bytes, r)
  | NifCall.bandType idx => ((gdal_band_type r idx).map NifAnswer.tag, r)
  | NifCall.noDataValue idx =>
    ((gdal_no_data_value r idx).map NifAnswer.sentinel, r)
  | NifCall.spatialRefWkt => ((gdal_spatial_ref_wkt r).map NifAnswer.text, r)
  | NifCall.spatialRefProj4 =>
    ((gdal_spatial_ref_proj4 r).map NifAnswer.text, r)
  | NifCall.geoTransform =>
    ((gdal_geo_transform r).map NifAnswer.transform, r)
  | NifCall.metadataItem key domain =>
    ((gdal_metadata_item r key domain).map NifAnswer.optText, r)
  | NifCall.driverName => ((gdal_driver_name r).map NifAnswer.text, r)

/-- Run a sequence of calls, threading the resource state. -/
def runCalls (r : DatasetResource) (cs : List NifCall) : DatasetResource :=
  cs.foldl (fun s c => (runCall s c).2) r

/-- The metadata queries of spec section 4.2, as calls. -/
def metadataQuery (c : NifCall) : Bool :=
  match c with
  | NifCall.rasterCount => true
  | NifCall.rasterSize => true
  | NifCall.bandType _ => true
  | NifCall.noDataValue _ => true
  | NifCall.spatialRefWkt => true
  | NifCall.spatialRefProj4 => true
  | NifCall.geoTransform => true
  | NifCall.metadataItem _ _ => true
  | NifCall.driverName => true
  | _ => false

/-- The byte sequence `gdal_read_band` produces for the sample Int16 band. -/
def sampleInt16Bytes : List Nat :=
  serialize 2 (List.replicate 6 5)

/-- The binary `gdal_read_band` returns for band 1 of the sample dataset. -/
def sampleInt16Bin : Binary :=
  mkNewBinary sampleInt16Bytes.length sampleInt16Bytes

/-- The byte sequence of the f64 fallback read of the sample band of
unrecognized encoding. -/
def sampleUnknownBytes : List Nat :=
  serialize 8 (List.replicate 6 1)

/-- The binary `gdal_read_band` returns for band 2 of the sample dataset. -/
def sampleUnknownBin : Binary :=
  mkNewBinary sampleUnknownBytes.length sampleUnknownBytes

/-- The binary `gdal_read_band_window` returns for a 2 x 2 window of
band 1 of the sample dataset. -/
def sampleWinBin : Binary :=
  mkNewBinary (List.replicate (2 * 2) 7).length (List.replicate (2 * 2) 7)

theorem neBytes_length (k v : Nat) : (neBytes k v).length = k := by
  simp [neBytes]

theorem serialize_length (k : Nat) (l : List Nat) :
    (serialize k l).length = l.length * k := by
  induction l with
  | nil => simp [serialize]
  | cons v rest ih =>
    simp [serialize, neBytes_length, ih]
    ring

theorem matchRead_ok (b : Band) (k : Nat) (f : List Nat → List Nat)
    (bytes : List Nat)
    (h : (match b.readAs k with
          | Except.error e => Except.error e
          | Except.ok buf =>
            (Except.ok (f buf) : Except GdalError (List Nat))) =
        Except.ok bytes) :
    ∃ buf, b.readAs k = Except.ok buf ∧ bytes = f buf := by
  cases hra : b.readAs k with
  | error e => rw [hra] at h; exact Except.noConfusion h
  | ok buf =>
    rw [hra] at h
    cases h
    exact ⟨buf, rfl, rfl⟩

theorem readBandBytes_ok (band : Band) (bytes : List Nat)
    (h : readBandBytes band = Except.ok bytes) :
    ∃ buf, band.readAs (elemWidth band.dtype) = Except.ok buf ∧
      bytes = (if band.dtype = GdalDataType.UInt8 then buf
               else serialize (elemWidth band.dtype) buf) := by
  cases hdt : band.dtype <;>
    simp only [readBandBytes, hdt] at h <;>
    simp only [elemWidth, reduceIte]
  case UInt8 => exact matchRead_ok band 1 (fun l => l) bytes h
  case Unknown => exact matchRead_ok band 8 (serialize 8) bytes h
  case Int8 => exact matchRead_ok band 8 (serialize 8) bytes h
  case UInt16 => exact matchRead_ok band 2 (serialize 2) bytes h
  case Int16 => exact matchRead_ok band 2 (serialize 2) bytes h
  case UInt32 => exact matchRead_ok band 4 (serialize 4) bytes h
  case Int32 => exact matchRead_ok band 4 (serialize 4) bytes h
  case UInt64 => exact matchRead_ok band 8 (serialize 8) bytes h
  case Int64 => exact matchRead_ok band 8 (serialize 8) bytes h
  case Float32 => exact matchRead_ok band 4 (serialize 4) bytes h
  case Float64 => exact matchRead_ok band 8 (serialize 8) bytes h

theorem readBandBytes_len (band : Band) (bytes : List Nat)
    (hfull : ReadsFull band) (h : readBandBytes band = Except.ok bytes) :
    bytes.length = band.width * band.height * elemWidth band.dtype := by
  obtain ⟨buf, hra, hbytes⟩ := readBandBytes_ok band bytes h
  subst hbytes
  by_cases h8 : band.dtype = GdalDataType.UInt8
  · rw [if_pos h8, hfull _ buf hra, h8]
    simp [elemWidth]
  · rw [if_neg h8, serialize_length, hfull _ buf hra]

theorem gdal_read_band_ok_inv (r : DatasetResource) (idx : Nat)
    (ds : Dataset) (band : Band) (bin : Binary)
    (hlock : lockInner r = Except.ok ds)
    (hband : ds.rasterband idx = Except.ok band)
    (hok : gdal_read_band r idx = Except.ok bin) :
    readBandBytes band = Except.ok bin.content ∧
    bin.size = bin.content.length := by
  simp only [gdal_read_band, hlock, hband] at hok
  cases hb : readBandBytes band with
  | error e => rw [hb] at hok; exact Except.noConfusion hok
  | ok bytes =>
    rw [hb] at hok
    cases hok
    exact ⟨rfl, rfl⟩

/-- C4: the atom mapping behind `band_type` returns the `unknown` tag
exactly for the encodings outside the seven supported ones, and never
produces the reserved tags `int8`, `uint64` and `int64`. -/
theorem data_type_to_atom_unknown_iff :
    ∀ dt : GdalDataType,
      (data_type_to_atom dt = Atom.unknown ↔ supported dt = false) ∧
      data_type_to_atom dt ≠ Atom.int8 ∧
      data_type_to_atom dt ≠ Atom.uint64 ∧
      data_type_to_atom dt ≠ Atom.int64 := by
  intro dt
  cases dt <;> decide

/-- C9: with a poisoned lock, every exposed operation on a handle returns
the lock poison error immediately; the result is the same whatever
dataset is behind the handle, so the dataset is not consulted. -/
theorem poisoned_lock_all_ops (ds : Dataset) (idx : Nat) (x y : Int)
    (w h : Nat) (key domain : String) :
    gdal_raster_count { poisoned := true, inner := ds } =
      Except.error lockPoisonMsg ∧
    gdal_raster_size { poisoned := true, inner := ds } =
      Except.error lockPoisonMsg ∧
    gdal_read_band { poisoned := true, inner := ds } idx =
      Except.error lockPoisonMsg ∧
    gdal_read_band_window { poisoned := true, inner := ds } idx x y w h =
      Except.error lockPoisonMsg ∧
    gdal_band_type { poisoned := true, inner := ds } idx =
      Except.error lockPoisonMsg ∧
    gdal_no_data_value { poisoned := true, inner := ds } idx =
      Except.error lockPoisonMsg ∧
    gdal_spatial_ref_wkt { poisoned := true, inner := ds } =
      Except.error lockPoisonMsg ∧
    gdal_spatial_ref_proj4 { poisoned := true, inner := ds } =
      Except.error lockPoisonMsg ∧
    gdal_geo_transform { poisoned := true, inner := ds } =
      Except.error lockPoisonMsg ∧
    gdal_metadata_item { poisoned := true, inner := ds } key domain =
      Except.error lockPoisonMsg ∧
    gdal_driver_name { poisoned := true, inner := ds } =
      Except.error lockPoisonMsg :=
  ⟨rfl, rfl, rfl, rfl, rfl, rfl, rfl, rfl, rfl, rfl, rfl⟩

theorem runCall_state (r : DatasetResource) (c : NifCall) :
    (runCall r c).2 = r := by
  cases c <;> rfl

theorem runCalls_state (r : DatasetResource) (cs : List NifCall) :
    runCalls r cs = r := by
  induction cs generalizing r with
  | nil => rfl
  | cons c cs ih =>
    have h1 : runCalls r (c :: cs) = runCalls ((runCall r c).2) cs := rfl
    rw [h1, runCall_state]
    exact ih r

/-- C10: the call surface is read-only — running any sequence of calls
(full-band and windowed reads included) leaves the resource unchanged,
so a metadata query returns the same result after the sequence as before
it. -/
theorem metadata_unchanged_by_calls (r : DatasetResource)
    (cs : List NifCall) (q : NifCall) (_hq : metadataQuery q = true) :
    (runCall (runCalls r cs) q).1 = (runCall r q).1 ∧
    runCalls r cs = r := by
  rw [runCalls_state]
  exact ⟨rfl, rfl⟩

/-- Witness for C10: interleaving a full-band read between two
raster-count queries on the sample resource changes nothing. -/
theorem metadata_unchanged_by_calls_witness :
    (runCall (runCalls sampleRes [NifCall.readBand 1])
        NifCall.rasterCount).1 =
      (runCall sampleRes NifCall.rasterCount).1 ∧
    runCalls sampleRes [NifCall.readBand 1] = sampleRes :=
  metadata_unchanged_by_calls sampleRes [NifCall.readBand 1]
    NifCall.rasterCount rfl

theorem sampleBandInt16_readsFull : ReadsFull sampleBandInt16 := by
  intro k data h
  cases h
  rfl

theorem sampleBandUnknown_readsFull : ReadsFull sampleBandUnknown := by
  intro k data h
  cases h
  rfl

theorem sampleBandInt16_windowExact : WindowExact sampleBandInt16 := by
  intro x y w h data hd
  cases hd
  exact List.length_replicate _ _

theorem elemWidth_unsupported (dt : GdalDataType)
    (h : supported dt = false) : elemWidth dt = 8 := by
  cases dt <;> simp_all [supported, elemWidth]

theorem readBandBytes_fallback (band : Band)
    (hsup : supported band.dtype = false) (data : List Nat)
    (hdata : band.readAs 8 = Except.ok data) :
    readBandBytes band = Except.ok (serialize 8 data) := by
  cases hdt : band.dtype <;>
    rw [hdt] at hsup <;>
    simp [supported] at hsup <;>
    simp [readBandBytes, hdt, hdata]

/-- C1: for a band of one of the seven supported encodings, a successful
`gdal_read_band` returns a byte sequence whose length is
width * height * sizeof(encoding), where width and height are the
dimensions of the band. -/
theorem read_band_length_supported (r : DatasetResource) (idx : Nat)
    (ds : Dataset) (band : Band) (bin : Binary)
    (hlock : lockInner r = Except.ok ds)
    (hband : ds.rasterband idx = Except.ok band)
    (hfull : ReadsFull band)
    (_hsup : supported band.dtype = true)
    (hok : gdal_read_band r idx = Except.ok bin) :
    bin.content.length = band.width * band.height * elemWidth band.dtype := by
  obtain ⟨hbb, _⟩ := gdal_read_band_ok_inv r idx ds band bin hlock hband hok
  exact readBandBytes_len band bin.content hfull hbb

/-- Witness for C1: the 2 x 3 Int16 sample band yields a 12-byte read. -/
theorem read_band_length_supported_witness :
    gdal_read_band sampleRes 1 = Except.ok sampleInt16Bin ∧
    sampleInt16Bin.content.length = 2 * 3 * 2 :=
  ⟨rfl, read_band_length_supported sampleRes 1 sampleDs sampleBandInt16
    sampleInt16Bin rfl rfl sampleBandInt16_readsFull rfl rfl⟩

/-- C2: a successful `gdal_read_band_window` goes through the u8 path
whatever the encoding of the band is: the result is the raw u8 window of
the library verbatim, and its length is w * h * 1 bytes. -/
theorem read_band_window_u8 (r : DatasetResource) (idx : Nat)
    (x y : Int) (w h : Nat) (ds : Dataset) (band : Band) (bin : Binary)
    (hlock : lockInner r = Except.ok ds)
    (hband : ds.rasterband idx = Except.ok band)
    (hwin : WindowExact band)
    (hok : gdal_read_band_window r idx x y w h = Except.ok bin) :
    bin.content.length = w * h * 1 ∧
    band.readWindowU8 x y w h = Except.ok bin.content ∧
    bin.size = bin.content.length := by
  simp only [gdal_read_band_window, hlock, hband] at hok
  cases hw : band.readWindowU8 x y w h with
  | error e => rw [hw] at hok; exact Except.noConfusion hok
  | ok data =>
    rw [hw] at hok
    cases hok
    refine ⟨?_, rfl, rfl⟩
    rw [Nat.mul_one]
    exact hwin x y w h data hw

/-- Witness for C2: a 2 x 2 window of the Int16 sample band comes back as
exactly 4 raw bytes. -/
theorem read_band_window_u8_witness :
    gdal_read_band_window sampleRes 1 0 0 2 2 = Except.ok sampleWinBin ∧
    sampleWinBin.content.length = 2 * 2 * 1 :=
  ⟨rfl, (read_band_window_u8 sampleRes 1 0 0 2 2 sampleDs sampleBandInt16
    sampleWinBin rfl rfl sampleBandInt16_windowExact rfl).1⟩

/-- C3: a successful `gdal_read_band` returns exactly the concatenation,
in element (row-major iteration) order, of the native-endian bytes of
each element of the typed buffer the library returned — with the uint8
buffer copied verbatim — and the output binary is allocated with size
exactly the byte length of that concatenation. -/
theorem read_band_marshal (r : DatasetResource) (idx : Nat)
    (ds : Dataset) (band : Band) (bin : Binary) (data : List Nat)
    (hlock : lockInner r = Except.ok ds)
    (hband : ds.rasterband idx = Except.ok band)
    (hread : band.readAs (elemWidth band.dtype) = Except.ok data)
    (hok : gdal_read_band r idx = Except.ok bin) :
    bin.content = (if band.dtype = GdalDataType.UInt8 then data
                   else serialize (elemWidth band.dtype) data) ∧
    bin.size = bin.content.length := by
  obtain ⟨hbb, hsize⟩ := gdal_read_band_ok_inv r idx ds band bin hlock hband hok
  obtain ⟨buf, hra, hbytes⟩ := readBandBytes_ok band bin.content hbb
  rw [hread] at hra
  cases hra
  exact ⟨hbytes, hsize⟩

/-- Witness for C3: the Int16 sample read is the serialization of its six
elements, sized exactly. -/
theorem read_band_marshal_witness :
    sampleInt16Bin.content =
      (if sampleBandInt16.dtype = GdalDataType.UInt8 then
        List.replicate 6 5
      else serialize (elemWidth sampleBandInt16.dtype)
        (List.replicate 6 5)) ∧
    sampleInt16Bin.size = sampleInt16Bin.content.length :=
  read_band_marshal sampleRes 1 sampleDs sampleBandInt16 sampleInt16Bin
    (List.replicate 6 5) rfl rfl rfl rfl

/-- C5: for a band of an encoding outside the seven supported ones,
`gdal_read_band` does not fail on account of the encoding: it decodes
through the f64 fallback path, and a successful read returns
width * height * 8 bytes. -/
theorem read_band_fallback_unknown (r : DatasetResource) (idx : Nat)
    (ds : Dataset) (band : Band) (bin : Binary)
    (hlock : lockInner r = Except.ok ds)
    (hband : ds.rasterband idx = Except.ok band)
    (hfull : ReadsFull band)
    (hsup : supported band.dtype = false)
    (hok : gdal_read_band r idx = Except.ok bin) :
    bin.content.length = band.width * band.height * 8 ∧
    (∀ data, band.readAs 8 = Except.ok data →
      readBandBytes band = Except.ok (serialize 8 data)) := by
  obtain ⟨hbb, _⟩ := gdal_read_band_ok_inv r idx ds band bin hlock hband hok
  constructor
  · have hlen := readBandBytes_len band bin.content hfull hbb
    rw [elemWidth_unsupported band.dtype hsup] at hlen
    exact hlen
  · intro data hdata
    exact readBandBytes_fallback band hsup data hdata

/-- Witness for C5: the 2 x 3 sample band of unrecognized encoding yields
a 48-byte read through the f64 fallback. -/
theorem read_band_fallback_unknown_witness :
    gdal_read_band sampleRes 2 = Except.ok sampleUnknownBin ∧
    sampleUnknownBin.content.length = 2 * 3 * 8 :=
  ⟨rfl, (read_band_fallback_unknown sampleRes 2 sampleDs sampleBandUnknown
    sampleUnknownBin rfl rfl sampleBandUnknown_readsFull rfl rfl).1⟩

/-- C6 counterexample: on a zero-band dataset every band index is out of
range, yet `gdal_raster_count` and `gdal_raster_size` succeed — they take
no band index and never produce the band error the claim asserts. -/
theorem raster_count_size_no_band_error :
    gdal_raster_count emptyRes = Except.ok 0 ∧
    gdal_raster_size emptyRes = Except.ok (0, 0) ∧
    gdal_raster_count emptyRes ≠
      Except.error (gdal_err_to_string rasterbandNullErr) ∧
    emptyDs.rasterCount < 1 :=
  ⟨rfl, rfl, fun h => Except.noConfusion h, by decide⟩

/-- C6 amended: `gdal_band_type` returns the band error for every index
that is 0 or exceeds the raster count, while `gdal_raster_count` and
`gdal_raster_size` take no band index and succeed whenever the lock is
healthy. -/
theorem band_type_out_of_range (r : DatasetResource) (idx : Nat)
    (ds : Dataset) (hlock : lockInner r = Except.ok ds)
    (hidx : idx = 0 ∨ ds.rasterCount < idx) :
    gdal_band_type r idx =
      Except.error (gdal_err_to_string rasterbandNullErr) ∧
    gdal_raster_count r = Except.ok ds.rasterCount ∧
    gdal_raster_size r = Except.ok ds.rasterSize := by
  have hidx2 : idx = 0 ∨ ds.bands.length < idx := hidx
  have hrb : ds.rasterband idx = Except.error rasterbandNullErr := by
    unfold Dataset.rasterband
    rw [dif_neg]
    omega
  refine ⟨?_, ?_, ?_⟩
  · simp [gdal_band_type, hlock, hrb]
  · simp [gdal_raster_count, hlock]
  · simp [gdal_raster_size, hlock]

/-- Witness for C6 amended: index 5 on the zero-band dataset. -/
theorem band_type_out_of_range_witness :
    gdal_band_type emptyRes 5 =
      Except.error (gdal_err_to_string rasterbandNullErr) ∧
    gdal_raster_count emptyRes = Except.ok emptyDs.rasterCount ∧
    gdal_raster_size emptyRes = Except.ok emptyDs.rasterSize :=
  band_type_out_of_range emptyRes 5 emptyDs rfl (Or.inr (by decide))

/-- C7: when the library open fails (non-existent, unreadable or
unrecognized path), `gdal_open` surfaces the library diagnostic text as
its error and produces no handle; a handle is produced exactly when the
library open succeeds, and then it wraps the opened dataset in a fresh
unpoisoned lock. -/
theorem gdal_open_spec (libOpen : String → Except GdalError Dataset)
    (path : String) :
    (∀ e, libOpen path = Except.error e →
      gdal_open libOpen path = Except.error (gdal_err_to_string e) ∧
      ∀ hnd, gdal_open libOpen path ≠ Except.ok hnd) ∧
    (∀ hnd, gdal_open libOpen path = Except.ok hnd →
      ∃ ds, libOpen path = Except.ok ds ∧
        hnd = { poisoned := false, inner := ds }) := by
  constructor
  · intro e he
    unfold gdal_open
    rw [he]
    exact ⟨rfl, fun hnd h => Except.noConfusion h⟩
  · intro hnd h
    unfold gdal_open at h
    cases hl : libOpen path with
    | error e => rw [hl] at h; exact Except.noConfusion h
    | ok ds =>
      rw [hl] at h
      cases h
      exact ⟨ds, rfl, rfl⟩

/-- Witness for C7: an open that fails with the library diagnostic. -/
theorem gdal_open_spec_witness :
    gdal_open failOpen "/missing.tif" =
      Except.error "No such file or directory" :=
  ((gdal_open_spec failOpen "/missing.tif").1
    { msg := "No such file or directory" } rfl).1

/-- C8: `gdal_no_data_value` passes the optional sentinel of the band
through exactly as stored; when no sentinel is configured the result is
the absent optional — never a number, in particular never zero. -/
theorem no_data_value_passthrough (r : DatasetResource) (idx : Nat)
    (ds : Dataset) (band : Band)
    (hlock : lockInner r = Except.ok ds)
    (hband : ds.rasterband idx = Except.ok band) :
    gdal_no_data_value r idx = Except.ok band.noData ∧
    (band.noData = none →
      ∀ z : Nat, gdal_no_data_value r idx ≠ Except.ok (some z)) := by
  have hval : gdal_no_data_value r idx = Except.ok band.noData := by
    simp only [gdal_no_data_value, hlock, hband]
  refine ⟨hval, ?_⟩
  intro hnone z hz
  rw [hval, hnone] at hz
  simp at hz

/-- Witness for C8: the sample band with configured sentinel 255 returns
exactly that sentinel. -/
theorem no_data_value_passthrough_witness :
    gdal_no_data_value sampleRes 2 = Except.ok (some 255) :=
  (no_data_value_passthrough sampleRes 2 sampleDs sampleBandUnknown
    rfl rfl).1
